import Mathlib

/-
Verification of the PriceScout AI backend (src/server.py).

The development shallowly embeds the content-acquisition and extraction
pipeline: string helpers model Python's `in` / `strip` / slicing, a fuel-based
JSON parser models `json.loads` at the external-library boundary (restricted
to integer numerals, which covers every payload considered here), and the
orchestration in `analyze_products` is modelled with explicit oracles for the
network, the browser crawler and the reasoning service, since those are
external collaborators.  Mutable cross-request state (the render semaphore) is
modelled as a small-step transition system.
-/

/-! ### Character-list string helpers (Python `in`, `strip`, slicing) -/

def isJsonWs (c : Char) : Bool :=
  c = ' ' || c = '\t' || c = '\n' || c = '\r'

def trimChars (cs : List Char) : List Char :=
  ((cs.dropWhile isJsonWs).reverse.dropWhile isJsonWs).reverse

/-- Python `str.strip()` (whitespace at both ends). -/
def strTrim (s : String) : String := String.mk (trimChars s.data)

/-- Substring containment, Python's `pat in hay`. -/
def listHasSub (pat : List Char) : List Char → Bool
  | [] => pat.isEmpty
  | c :: t => pat.isPrefixOf (c :: t) || listHasSub pat t

def strContains (hay pat : String) : Bool := listHasSub pat.data hay.data

/-- Split at the first occurrence of `pat`: returns the text before it and the
text after it, or `none` when `pat` does not occur. -/
def splitAtSub (pat : List Char) : List Char → Option (List Char × List Char)
  | [] => if pat.isPrefixOf ([] : List Char) then some ([], []) else none
  | c :: t =>
    if pat.isPrefixOf (c :: t) then some ([], (c :: t).drop pat.length)
    else (splitAtSub pat t).map (fun p => (c :: p.1, p.2))

/-! ### JSON values and a fuel-based parser

Modelled from the spec: `json.loads` of the Python standard library is an
external collaborator; the model covers objects, arrays, strings with the
common escape sequences, `true`/`false`/`null` and integer numerals.  Every
payload appearing in this development is inside that fragment. -/

inductive JVal where
  | jnull : JVal
  | jbool : Bool → JVal
  | jnum : Int → JVal
  | jstr : String → JVal
  | jarr : List JVal → JVal
  | jobj : List (String × JVal) → JVal

def skipWs : List Char → List Char
  | [] => []
  | c :: r => if isJsonWs c then skipWs r else c :: r

def parseStringBody : List Char → Option (List Char × List Char)
  | [] => none
  | '"' :: rest => some ([], rest)
  | '\\' :: c :: rest =>
    let esc : Option Char :=
      if c = '"' then some '"'
      else if c = '\\' then some '\\'
      else if c = '/' then some '/'
      else if c = 'n' then some '\n'
      else if c = 't' then some '\t'
      else if c = 'r' then some '\r'
      else none
    match esc with
    | none => none
    | some e => (parseStringBody rest).map (fun p => (e :: p.1, p.2))
  | c :: rest => (parseStringBody rest).map (fun p => (c :: p.1, p.2))

def takeDigits : List Char → List Char × List Char
  | [] => ([], [])
  | c :: r =>
    if c.isDigit then
      let p := takeDigits r
      (c :: p.1, p.2)
    else ([], c :: r)

def digitsToNat (ds : List Char) : Nat :=
  ds.foldl (fun acc c => acc * 10 + (c.toNat - 48)) 0

/-- Integer numerals only; a following `.`, `e` or `E` (a float) is rejected
by the model. -/
def parseNumber (cs : List Char) : Option (JVal × List Char) :=
  let core : List Char → Option (Nat × List Char) := fun l =>
    match takeDigits l with
    | ([], _) => none
    | (ds, rest) =>
      match rest with
      | '.' :: _ => none
      | 'e' :: _ => none
      | 'E' :: _ => none
      | _ => some (digitsToNat ds, rest)
  match cs with
  | '-' :: rest => (core rest).map (fun p => (JVal.jnum (-(p.1 : Int)), p.2))
  | _ => (core cs).map (fun p => (JVal.jnum (p.1 : Int), p.2))

inductive PMode where
  | pv : PMode
  | pm : PMode
  | pe : PMode

def parseCore : Nat → PMode → List Char → Option (JVal × List Char)
  | 0, _, _ => none
  | fuel + 1, PMode.pv, cs =>
    match skipWs cs with
    | '"' :: rest => (parseStringBody rest).map (fun p => (JVal.jstr (String.mk p.1), p.2))
    | '\x7b' :: rest =>
      match skipWs rest with
      | '\x7d' :: rem => some (JVal.jobj [], rem)
      | cs' => parseCore fuel PMode.pm cs'
    | '[' :: rest =>
      match skipWs rest with
      | ']' :: rem => some (JVal.jarr [], rem)
      | cs' => parseCore fuel PMode.pe cs'
    | cs' =>
      if ['t', 'r', 'u', 'e'].isPrefixOf cs' then some (JVal.jbool true, cs'.drop 4)
      else if ['f', 'a', 'l', 's', 'e'].isPrefixOf cs' then some (JVal.jbool false, cs'.drop 5)
      else if ['n', 'u', 'l', 'l'].isPrefixOf cs' then some (JVal.jnull, cs'.drop 4)
      else parseNumber cs'
  | fuel + 1, PMode.pm, cs =>
    match skipWs cs with
    | '"' :: rest =>
      match parseStringBody rest with
      | none => none
      | some (k, rem) =>
        match skipWs rem with
        | ':' :: rem2 =>
          match parseCore fuel PMode.pv rem2 with
          | none => none
          | some (v, rem3) =>
            match skipWs rem3 with
            | ',' :: rem4 =>
              match parseCore fuel PMode.pm rem4 with
              | some (JVal.jobj fields, rem5) => some (JVal.jobj ((String.mk k, v) :: fields), rem5)
              | _ => none
            | '\x7d' :: rem4 => some (JVal.jobj [(String.mk k, v)], rem4)
            | _ => none
        | _ => none
    | _ => none
  | fuel + 1, PMode.pe, cs =>
    match parseCore fuel PMode.pv cs with
    | none => none
    | some (v, rem) =>
      match skipWs rem with
      | ',' :: rem2 =>
        match parseCore fuel PMode.pe rem2 with
        | some (JVal.jarr xs, rem3) => some (JVal.jarr (v :: xs), rem3)
        | _ => none
      | ']' :: rem2 => some (JVal.jarr [v], rem2)
      | _ => none

/-- Modelled from the spec: Python `json.loads` — the whole input, up to
surrounding whitespace, must be one JSON value; `none` models the
`JSONDecodeError` it raises otherwise. -/
def json_loads (s : String) : Option JVal :=
  match parseCore (2 * s.data.length + 2) PMode.pv s.data with
  | some (v, rem) => if (skipWs rem).isEmpty then some v else none
  | none => none

/-! ### `robust_json_extract` (src/server.py lines 237-262)

Strategy 1 models `re.findall` of the fenced-block pattern: each match is the
text between a ```json opener and the next ``` closer, the `\s*` borders of
the lazy capture trimming surrounding whitespace.  Strategy 2 models
`re.search` of the brace pattern under DOTALL: the span from the first brace
to the last closing brace after it.  Strategy 3 models the two `re.sub`
cleanups followed by `strip` and a final `json.loads` whose failure (the
exception the source lets escape) is `none`. -/

def fenceJsonLit : List Char := "```json".data

def fenceLit : List Char := "```".data

def fencedBlocksAux : Nat → List Char → List String
  | 0, _ => []
  | fuel + 1, cs =>
    match splitAtSub fenceJsonLit cs with
    | none => []
    | some (_, rest) =>
      match splitAtSub fenceLit rest with
      | none => []
      | some (body, rest2) => String.mk (trimChars body) :: fencedBlocksAux fuel rest2

def fencedBlocks (text : String) : List String :=
  fencedBlocksAux (text.data.length + 1) text.data

def firstParsedBlock : List String → Option JVal
  | [] => none
  | b :: rest =>
    match json_loads b with
    | some v => some v
    | none => firstParsedBlock rest

/-- Suffix of the list starting at its first opening brace. -/
def dropToBrace : List Char → Option (List Char)
  | [] => none
  | c :: t => if c = '\x7b' then some (c :: t) else dropToBrace t

/-- The `re.search` of the greedy brace pattern with DOTALL: the span from the
first opening brace to the last closing brace of the whole text, when that
closing brace lies after the opening one. -/
def braceSpan (s : String) : Option String :=
  match dropToBrace s.data with
  | none => none
  | some suff =>
    let kept := (suff.reverse.dropWhile (fun c => c != '\x7d')).reverse
    if kept.isEmpty then none else some (String.mk kept)

def removeFenceJsonAux : Nat → List Char → List Char
  | 0, cs => cs
  | fuel + 1, cs =>
    match splitAtSub fenceJsonLit cs with
    | none => cs
    | some (before, rest) => before ++ removeFenceJsonAux fuel (rest.dropWhile isJsonWs)

def removeTicksAux : Nat → List Char → List Char
  | 0, cs => cs
  | fuel + 1, cs =>
    match splitAtSub fenceLit cs with
    | none => cs
    | some (before, rest) => before ++ removeTicksAux fuel rest

def robust_json_extract (text : String) : Option JVal :=
  match firstParsedBlock (fencedBlocks text) with
  | some v => some v
  | none =>
    let viaBraces :=
      match braceSpan text with
      | some span => json_loads span
      | none => none
    match viaBraces with
    | some v => some v
    | none =>
      let cleaned :=
        removeTicksAux (text.data.length + 1)
          (removeFenceJsonAux (text.data.length + 1) text.data)
      json_loads (String.mk (trimChars cleaned))

/-! ### Content Extractor (src/server.py lines 136-172)

`extract_content_from_html` applies, in priority order: the structural search
for the Next.js hydration script, the regex fallback for the same marker, the
blocked-title check, and generic body-text extraction truncated at 50000
characters.  The structural search, the title access and the body-text
extraction are performed by the external HTML-parsing collaborator
(BeautifulSoup); they are modelled from the spec (sections 4.4 and 6): find
the first script element whose attributes carry the well-known marker id and
return its raw content, take the title element's content, and join the
trimmed text nodes of the body with single spaces. -/

def scriptOpenLit : List Char := "<script".data

def nextDataIdLit : List Char := "id=\"__NEXT_DATA__\"".data

def scriptCloseLit : List Char := "</script>".data

/-- Modelled from the spec: the structural hydration-marker search done by the
external HTML parser (`soup.find` with the marker id, then `.string`). -/
def findScriptByIdAux : Nat → List Char → Option String
  | 0, _ => none
  | fuel + 1, cs =>
    match splitAtSub scriptOpenLit cs with
    | none => none
    | some (_, rest) =>
      match splitAtSub ['>'] rest with
      | none => none
      | some (attrs, afterGt) =>
        if listHasSub nextDataIdLit attrs then
          match splitAtSub scriptCloseLit afterGt with
          | none => none
          | some (body, _) => some (String.mk body)
        else findScriptByIdAux fuel afterGt

def findScriptById (html : String) : Option String :=
  findScriptByIdAux (html.data.length + 1) html.data

def nextDataFullLit : List Char :=
  "<script id=\"__NEXT_DATA__\" type=\"application/json\">".data

/-- The lazy capture of the source's hydration regex, at one opener position:
the shortest non-empty span, free of newlines (the pattern is compiled without
DOTALL), that is followed by the closing script tag. -/
def regexCapture : Nat → List Char → List Char → Option String
  | 0, _, _ => none
  | fuel + 1, acc, cs =>
    match splitAtSub scriptCloseLit cs with
    | none => none
    | some (seg, rest) =>
      let acc2 := acc ++ seg
      if acc2.contains '\n' then none
      else if acc2.isEmpty then regexCapture fuel (acc2 ++ scriptCloseLit) rest
      else some (String.mk acc2)

def nextDataRegexAux : Nat → List Char → Option String
  | 0, _ => none
  | fuel + 1, cs =>
    match splitAtSub nextDataFullLit cs with
    | none => none
    | some (_, rest) =>
      match regexCapture (rest.length + 1) [] rest with
      | some s => some s
      | none => nextDataRegexAux fuel rest

/-- The regex fallback of src/server.py lines 148-152. -/
def nextDataRegex (html : String) : Option String :=
  nextDataRegexAux (html.data.length + 1) html.data

def titleOpenLit : List Char := "<title".data

def titleCloseLit : List Char := "</title>".data

/-- Modelled from the spec: the title lookup done by the external HTML parser
(`soup.title.string`, empty when the document has no title). -/
def getTitle (html : String) : String :=
  match splitAtSub titleOpenLit html.data with
  | none => ""
  | some (_, rest) =>
    match splitAtSub ['>'] rest with
    | none => ""
    | some (_, afterGt) =>
      match splitAtSub titleCloseLit afterGt with
      | none => ""
      | some (body, _) => String.mk body

def textNodesAux : Nat → List Char → List (List Char)
  | 0, _ => []
  | fuel + 1, cs =>
    let seg := cs.takeWhile (fun c => c != '<')
    let rest := cs.dropWhile (fun c => c != '<')
    match rest with
    | [] => [seg]
    | _ :: rest2 =>
      match rest2.dropWhile (fun c => c != '>') with
      | [] => [seg]
      | _ :: rest4 => seg :: textNodesAux fuel rest4

def bodyOpenLit : List Char := "<body".data

def bodyCloseLit : List Char := "</body>".data

/-- Modelled from the spec: the generic body-text extraction done by the
external HTML parser (`soup.body.get_text` with a single-space separator and
per-node stripping; empty when the document has no body element). -/
def getBodyText (html : String) : String :=
  match splitAtSub bodyOpenLit html.data with
  | none => ""
  | some (_, rest) =>
    match splitAtSub ['>'] rest with
    | none => ""
    | some (_, afterGt) =>
      let inner :=
        match splitAtSub bodyCloseLit afterGt with
        | none => afterGt
        | some (body, _) => body
      let nodes := (textNodesAux (inner.length + 1) inner).map trimChars
      String.intercalate " " ((nodes.filter (fun n => !n.isEmpty)).map String.mk)

/-- src/server.py lines 136-172.  The final raw-fallback branch of the source
catches exceptions of the external parser; the model's parsing functions are
total, so that branch is unreachable here. -/
def extract_content_from_html (html url : String) : String :=
  match findScriptById html with
  | some nd => "--- SOURCE (Next.js Data): " ++ url ++ " ---\n" ++ nd ++ "\n"
  | none =>
    match nextDataRegex html with
    | some nd => "--- SOURCE (Next.js Data): " ++ url ++ " ---\n" ++ nd ++ "\n"
    | none =>
      let title := getTitle html
      if strContains title "503" || strContains title "Service Unavailable" then
        "--- SOURCE (BLOCKED): " ++ url ++
          " ---\nERROR: Amazon blocked the request (503 Service Unavailable).\n"
      else
        let body := getBodyText html
        let body2 :=
          if decide (body.data.length > 50000) then
            String.mk (body.data.take 50000) ++ "... (truncated)"
          else body
        "--- SOURCE: " ++ url ++ " ---\n" ++ body2 ++ "\n"

/-! ### Lightweight Fetcher (src/server.py lines 174-205)

The HTTP GET itself is the external lightweight-HTTP collaborator: `none`
models a raised exception (timeout, network error), which the source catches,
and `some r` a returned response with status code and body text. -/

structure HttpResp where
  status : Nat
  body : String

def lightweight_fetch (url : String) (resp : Option HttpResp) : Option String :=
  match resp with
  | none => none
  | some r =>
    if r.status = 200 then
      if strContains url "takealot" && strContains r.body "__NEXT_DATA__" then
        some (extract_content_from_html r.body url)
      else if decide (r.body.data.length > 5000) then
        some (extract_content_from_html r.body url)
      else none
    else none

/-- The usefulness condition as the spec words it: HTTP 200, and either the
hydration-domain check with the marker present in the raw body, or a body
beyond the 5000-character threshold. -/
def spec_useful (url : String) (r : HttpResp) : Bool :=
  (r.status == 200) &&
    ((strContains url "takealot" && strContains r.body "__NEXT_DATA__") ||
      decide (r.body.data.length > 5000))

/-! ### Acquisition Orchestrator (src/server.py lines 282-351)

The per-site fetch outcomes are oracles: `lightweight site` is what
`lightweight_fetch` returns for the site's resolved search URL, and
`render site` is what `crawl_site` returns for it (`""` on failure, since
`crawl_site` absorbs its own errors).  `crawlerInit` tells whether the
browser-crawler context manager initializes.  The reasoning-service responses
are the `primaryText`/`retryText` oracles (`none` models a raised call or an
absent `response.text`). -/

structure CallCfg where
  googleSearch : Bool
  strictJson : Bool
deriving DecidableEq

/-- The primary invocation: search tool enabled, free-form output
(src/server.py lines 356-362). -/
def primaryCfg : CallCfg := ⟨true, false⟩

/-- The retry invocation: no tools, strict JSON output mode
(src/server.py lines 373-379). -/
def retryCfg : CallCfg := ⟨false, true⟩

inductive Event where
  | logSearch : Event
  | geminiCall : CallCfg → Event
deriving DecidableEq

structure Env where
  apiKey : Option String
  lightweight : String → Option String
  crawlerInit : Bool
  render : String → String
  primaryText : Option String
  retryText : Option String

/-- The lightweight loop of src/server.py lines 300-306: each site's block is
appended to the markdown accumulator when the fetch returned content and the
site is queued for the browser otherwise, in site-list order. -/
def lightweightPhase (lw : String → Option String) : List String → String × List String
  | [] => ("", [])
  | site :: rest =>
    match lw site with
    | some c =>
      let p := lightweightPhase lw rest
      (c ++ "\n" ++ p.1, p.2)
    | none =>
      let p := lightweightPhase lw rest
      (p.1, site :: p.2)

/-- The browser loop of src/server.py lines 332-340: non-empty crawl results
are appended in order; failed sites contribute nothing. -/
def renderPhase (render : String → String) : List String → String
  | [] => ""
  | site :: rest =>
    if render site = "" then renderPhase render rest
    else render site ++ "\n" ++ renderPhase render rest

/-- The guarded browser stage of src/server.py lines 308-345: skipped when no
site needs the browser; on crawler-initialization failure a 500 error is
raised only when the lightweight phase gathered nothing, otherwise the request
continues with the partial markdown. -/
def browserStage (crawlerInit : Bool) (render : String → String)
    (md : String) (needs : List String) : Except Nat String :=
  if needs.isEmpty then Except.ok md
  else if crawlerInit then Except.ok (md ++ renderPhase render needs)
  else if md = "" then Except.error 500
  else Except.ok md

/-- The retry branch of src/server.py lines 372-383: one strict-mode call; an
unparseable or absent retry response ends in a 500 error. -/
def runRetry (rt : Option String) : List CallCfg × Except Nat JVal :=
  match rt with
  | none => ([primaryCfg, retryCfg], Except.error 500)
  | some t =>
    match robust_json_extract t with
    | some v => ([primaryCfg, retryCfg], Except.ok v)
    | none => ([primaryCfg, retryCfg], Except.error 500)

/-- The analysis step of src/server.py lines 355-383, recording the
configurations of the reasoning-service calls that were issued. -/
def analysisPhase (pt rt : Option String) : List CallCfg × Except Nat JVal :=
  match pt with
  | none => runRetry rt
  | some t =>
    if t == "" then runRetry rt
    else
      match robust_json_extract t with
      | some v => ([primaryCfg], Except.ok v)
      | none => runRetry rt

/-- A call attempt fails when the service raised or returned no text, or when
no structured payload is recoverable from the text. -/
def callFails : Option String → Bool
  | none => true
  | some t => t == "" || (robust_json_extract t).isNone

/-- The request handler of src/server.py lines 282-391: the persistence task
is spawned first, then the credential check, the two acquisition phases, the
empty-corpus guard, and the analysis step. -/
def analyze_products (env : Env) (websites : List String) : List Event × Except Nat JVal :=
  if env.apiKey.isNone then ([Event.logSearch], Except.error 400)
  else
    let phase1 := lightweightPhase env.lightweight websites
    match browserStage env.crawlerInit env.render phase1.1 phase1.2 with
    | Except.error c => ([Event.logSearch], Except.error c)
    | Except.ok corpus =>
      if strTrim corpus = "" then ([Event.logSearch], Except.error 500)
      else
        let ar := analysisPhase env.primaryText env.retryText
        (Event.logSearch :: ar.1.map Event.geminiCall, ar.2)

/-- Claim C1's corpus: one block per site, in original site-list order,
regardless of which path produced the block. -/
def claimCorpus (lw : String → Option String) (render : String → String)
    (ws : List String) : String :=
  String.join (ws.filterMap (fun s =>
    match lw s with
    | some c => some (c ++ "\n")
    | none => if render s = "" then none else some (render s ++ "\n")))

def concatBlocks : List String → String
  | [] => ""
  | b :: t => b ++ concatBlocks t

/-- The blocks the lightweight phase contributes, in site-list order. -/
def lightBlocks (lw : String → Option String) (ws : List String) : List String :=
  ws.filterMap (fun s => (lw s).map (fun c => c ++ "\n"))

/-- The blocks the render phase contributes, in order of the queued subset. -/
def renderBlocks (render : String → String) (needs : List String) : List String :=
  needs.filterMap (fun s => if render s = "" then none else some (render s ++ "\n"))

/-! ### The render slot across concurrent requests (src/server.py lines 46-49
and 309-347)

`scraping_semaphore = asyncio.Semaphore(1)` is the only cross-request mutable
state.  The interleaving of the process's requests is modelled as a transition
system: each request is before, inside, or past its render phase; entering
requires one permit (`async with scraping_semaphore`), and leaving — whether
the phase ended normally or raised, since `async with` releases on either —
returns it. -/

inductive RPhase where
  | beforeRender : RPhase
  | rendering : RPhase
  | afterRender : RPhase
deriving DecidableEq

structure SemState where
  phases : List RPhase
  permits : Nat
deriving DecidableEq

def countRendering (ps : List RPhase) : Nat :=
  ps.countP (fun p => p = RPhase.rendering)

inductive SemStep : SemState → SemState → Prop where
  | acquire (ps : List RPhase) (k i : Nat) (h : ps[i]? = some RPhase.beforeRender) :
      SemStep ⟨ps, k + 1⟩ ⟨ps.set i RPhase.rendering, k⟩
  | release (ps : List RPhase) (k i : Nat) (h : ps[i]? = some RPhase.rendering) :
      SemStep ⟨ps, k⟩ ⟨ps.set i RPhase.afterRender, k + 1⟩

/-- Reachable states of `n` concurrent requests sharing the single-permit
semaphore. -/
inductive SemReach (n : Nat) : SemState → Prop where
  | init : SemReach n ⟨List.replicate n RPhase.beforeRender, 1⟩
  | step {s s' : SemState} : SemReach n s → SemStep s s' → SemReach n s'

/-! ### The lightweight phase as an event trace (src/server.py lines 300-306)

The loop `for site in params.websites: fetched_content = await
lightweight_fetch(url)` awaits each fetch to completion before issuing the
next, so within one request the phase emits, per site in order, a start event
immediately followed by its completion event. -/

inductive FEv where
  | fstart : String → FEv
  | fend : String → FEv
deriving DecidableEq

def lightweightTrace : List String → List FEv
  | [] => []
  | s :: rest => FEv.fstart s :: FEv.fend s :: lightweightTrace rest

def maxInFlightAux : Nat → Nat → List FEv → Nat
  | _, mx, [] => mx
  | cur, mx, FEv.fstart _ :: r => maxInFlightAux (cur + 1) (Nat.max mx (cur + 1)) r
  | cur, mx, FEv.fend _ :: r => maxInFlightAux (cur - 1) mx r

/-- The largest number of fetches simultaneously in flight along a trace. -/
def maxInFlight (t : List FEv) : Nat := maxInFlightAux 0 0 t

/-! ### Concrete inputs and environments used by individual claims -/

/-- The lightweight oracle of the C1 counterexample: only the second site
succeeds on the lightweight path. -/
def lwCex : String → Option String :=
  fun s => if s = "siteB" then some "--- SOURCE: siteB ---" else none

/-- The render oracle of the C1 counterexample: the first site succeeds on the
render path. -/
def renderCex : String → String :=
  fun s => if s = "siteA" then "--- SOURCE: siteA ---" else ""

/-- Environment of the C4 witness: every lightweight fetch misses and every
render fetch fails, so the corpus is empty. -/
def envC4 : Env :=
  { apiKey := some "key", lightweight := fun _ => none, crawlerInit := true,
    render := fun _ => "", primaryText := some "\x7b\x7d", retryText := some "\x7b\x7d" }

/-- Environment of the C9 witness: no API credential supplied. -/
def envC9 : Env :=
  { apiKey := none, lightweight := fun _ => some "x", crawlerInit := true,
    render := fun _ => "", primaryText := none, retryText := none }

/-- The markup of claim C7: a hydration script element with the well-known
marker id and the body from the spec's testable property. -/
def hydrationInput : String :=
  "<script id=\"__NEXT_DATA__\" type=\"application/json\">\x7b\"a\":1\x7d</script>"

/-- The fenced input of claim C8. -/
def fencedInput : String :=
  "```json\n\x7b\"top_recommendation\":\"x\",\"comparison_table\":[]\x7d\n```"

/-- The fence-free input of claim C8, with leading prose. -/
def proseInput : String :=
  "Here is the comparison you asked for:\n\x7b\"top_recommendation\":\"x\",\"comparison_table\":[]\x7d"

/-- The payload of claim C8. -/
def expectedPayload : JVal :=
  JVal.jobj [("top_recommendation", JVal.jstr "x"), ("comparison_table", JVal.jarr [])]

/-! ### String append helper lemmas -/

theorem strAppendData (a b : String) : a ++ b = String.mk (a.data ++ b.data) := by
  cases a; cases b; rfl

theorem strAppendEmpty (a : String) : a ++ "" = a := by
  cases a
  rw [strAppendData]
  simp

theorem strAppendAssoc (a b c : String) : a ++ b ++ c = a ++ (b ++ c) := by
  cases a; cases b; cases c
  rw [strAppendData, strAppendData, strAppendData, strAppendData]
  simp

/-! ### Render-slot invariant lemmas -/

theorem countRendering_replicate (n : Nat) :
    countRendering (List.replicate n RPhase.beforeRender) = 0 := by
  induction n with
  | zero => rfl
  | succ k ih =>
    rw [List.replicate_succ]
    simp only [countRendering, List.countP_cons] at ih ⊢
    simp [ih]

theorem countRendering_set_acquire (ps : List RPhase) (i : Nat)
    (h : ps[i]? = some RPhase.beforeRender) :
    countRendering (ps.set i RPhase.rendering) = countRendering ps + 1 := by
  induction ps generalizing i with
  | nil => simp at h
  | cons a t ih =>
    cases i with
    | zero =>
      simp only [List.getElem?_cons_zero, Option.some.injEq] at h
      subst h
      simp [countRendering, List.countP_cons]
    | succ j =>
      simp only [List.getElem?_cons_succ] at h
      simp only [List.set_cons_succ, countRendering, List.countP_cons]
      have := ih j h
      simp only [countRendering] at this
      omega

theorem countRendering_set_release (ps : List RPhase) (i : Nat)
    (h : ps[i]? = some RPhase.rendering) :
    countRendering ps = countRendering (ps.set i RPhase.afterRender) + 1 := by
  induction ps generalizing i with
  | nil => simp at h
  | cons a t ih =>
    cases i with
    | zero =>
      simp only [List.getElem?_cons_zero, Option.some.injEq] at h
      subst h
      simp [countRendering, List.countP_cons]
    | succ j =>
      simp only [List.getElem?_cons_succ] at h
      simp only [List.set_cons_succ, countRendering, List.countP_cons]
      have := ih j h
      simp only [countRendering] at this
      omega

/-- In every reachable state, the free permits and the requests inside their
render phase account for exactly the one permit the semaphore was created
with. -/
theorem semInvariant {n : Nat} {s : SemState} (h : SemReach n s) :
    s.permits + countRendering s.phases = 1 := by
  induction h with
  | init => simp [countRendering_replicate]
  | step _ hs ih =>
    cases hs with
    | acquire ps k i hi =>
      simp only at ih ⊢
      rw [countRendering_set_acquire ps i hi]
      omega
    | release ps k i hi =>
      have hrel := countRendering_set_release ps i hi
      simp only at ih ⊢
      omega

/-- C2: across all concurrently running requests, at most one render-path
browser session is ever active: every render phase takes the single shared
permit before starting and gives it back when the phase ends, normally or on
error, so no reachable interleaving has two requests rendering at once. -/
theorem render_slot_exclusive (n : Nat) (s : SemState) (h : SemReach n s) :
    countRendering s.phases ≤ 1 := by
  have := semInvariant h
  omega

/-- Witness for C2 at a concrete reachable state: two overlapping requests,
the first holding the render slot. -/
theorem render_slot_exclusive_witness :
    SemReach 2 ⟨[RPhase.rendering, RPhase.beforeRender], 0⟩
    ∧ countRendering [RPhase.rendering, RPhase.beforeRender] ≤ 1 := by
  have h0 : SemReach 2 ⟨List.replicate 2 RPhase.beforeRender, 1⟩ := SemReach.init
  have hstep : SemStep ⟨List.replicate 2 RPhase.beforeRender, 0 + 1⟩
      ⟨(List.replicate 2 RPhase.beforeRender).set 0 RPhase.rendering, 0⟩ :=
    SemStep.acquire (List.replicate 2 RPhase.beforeRender) 0 0 (by decide)
  have hreach : SemReach 2 ⟨[RPhase.rendering, RPhase.beforeRender], 0⟩ :=
    SemReach.step h0 hstep
  exact ⟨hreach, render_slot_exclusive 2 _ hreach⟩

/-! ### Sequentiality of the lightweight phase -/

theorem maxInFlightAux_trace_le (ws : List String) (mx : Nat) (hmx : mx ≤ 1) :
    maxInFlightAux 0 mx (lightweightTrace ws) ≤ 1 := by
  induction ws generalizing mx with
  | nil => exact hmx
  | cons s rest ih =>
    show maxInFlightAux 0 (Nat.max mx 1) (lightweightTrace rest) ≤ 1
    exact ih _ (Nat.max_le.mpr ⟨hmx, Nat.le_refl 1⟩)

/-- C3 counterexample: for a two-site request the trace generated by the
lightweight loop never has both fetches in flight at once — the loop awaits
each fetch before issuing the next. -/
theorem lightweight_not_concurrent :
    maxInFlight (lightweightTrace ["siteA", "siteB"]) = 1
    ∧ ¬ 2 ≤ maxInFlight (lightweightTrace ["siteA", "siteB"]) := by
  constructor
  · rfl
  · intro h
    exact absurd (show maxInFlight (lightweightTrace ["siteA", "siteB"]) = 1 from rfl)
      (by omega)

/-- C3 amended: within one request the lightweight fetches are issued
sequentially in site-list order, each completing before the next starts, so at
most one is in flight at any moment of the phase. -/
theorem lightweight_sequential (ws : List String) :
    maxInFlight (lightweightTrace ws) ≤ 1 :=
  maxInFlightAux_trace_le ws 0 (Nat.zero_le 1)

/-! ### Corpus assembly lemmas -/

theorem lightweightPhase_fst (lw : String → Option String) (ws : List String) :
    (lightweightPhase lw ws).1 = concatBlocks (lightBlocks lw ws) := by
  induction ws with
  | nil => rfl
  | cons s rest ih =>
    cases hs : lw s with
    | some c => simp [lightweightPhase, hs, lightBlocks, concatBlocks, List.filterMap_cons, ih]
    | none => simp [lightweightPhase, hs, lightBlocks, List.filterMap_cons, ih]

theorem lightweightPhase_snd (lw : String → Option String) (ws : List String) :
    (lightweightPhase lw ws).2 = ws.filter (fun s => (lw s).isNone) := by
  induction ws with
  | nil => rfl
  | cons s rest ih =>
    cases hs : lw s with
    | some c => simp [lightweightPhase, hs, List.filter_cons, ih]
    | none => simp [lightweightPhase, hs, List.filter_cons, ih]

theorem renderPhase_eq (render : String → String) (needs : List String) :
    renderPhase render needs = concatBlocks (renderBlocks render needs) := by
  induction needs with
  | nil => rfl
  | cons s rest ih =>
    by_cases h : render s = ""
    · simp [renderPhase, renderBlocks, List.filterMap_cons, h, ih]
    · simp [renderPhase, renderBlocks, concatBlocks, List.filterMap_cons, h, ih,
        strAppendAssoc]

/-- C1 counterexample: with sites [siteA, siteB] where siteA needs the render
path and siteB succeeds on the lightweight path, the assembled corpus places
siteB's block before siteA's block, while the claim's site-list-order corpus
places siteA's block first; the two differ. -/
theorem corpus_order_counterexample :
    browserStage true renderCex (lightweightPhase lwCex ["siteA", "siteB"]).1
        (lightweightPhase lwCex ["siteA", "siteB"]).2
      = Except.ok "--- SOURCE: siteB ---\n--- SOURCE: siteA ---\n"
    ∧ claimCorpus lwCex renderCex ["siteA", "siteB"]
      = "--- SOURCE: siteA ---\n--- SOURCE: siteB ---\n"
    ∧ ("--- SOURCE: siteB ---\n--- SOURCE: siteA ---\n" : String)
      ≠ "--- SOURCE: siteA ---\n--- SOURCE: siteB ---\n" :=
  ⟨rfl, rfl, by decide⟩

/-- C1 amended: the corpus handed to the reasoning step is the concatenation
of the non-empty lightweight-path blocks in site-list order, followed by the
non-empty render-path blocks in site-list order of the sites whose lightweight
fetch returned nothing — not the interleaved original site-list order. -/
theorem corpus_phase_order (lw : String → Option String) (render : String → String)
    (ws : List String) :
    browserStage true render (lightweightPhase lw ws).1 (lightweightPhase lw ws).2
      = Except.ok (concatBlocks (lightBlocks lw ws)
          ++ concatBlocks (renderBlocks render (ws.filter (fun s => (lw s).isNone)))) := by
  rw [show browserStage true render (lightweightPhase lw ws).1 (lightweightPhase lw ws).2
      = browserStage true render (concatBlocks (lightBlocks lw ws))
          (ws.filter (fun s => (lw s).isNone)) by
    rw [lightweightPhase_fst, lightweightPhase_snd]]
  unfold browserStage
  by_cases hni : (ws.filter (fun s => (lw s).isNone)).isEmpty
  · rw [if_pos hni]
    have hnil : ws.filter (fun s => (lw s).isNone) = [] := List.isEmpty_iff.mp hni
    rw [hnil]
    show Except.ok _ = Except.ok (concatBlocks (lightBlocks lw ws) ++ concatBlocks [])
    rw [show concatBlocks [] = "" from rfl, strAppendEmpty]
  · rw [if_neg hni, if_pos rfl, renderPhase_eq]

/-! ### Empty-corpus guard and analysis retry -/

/-- C4: when the assembled corpus is blank after both acquisition phases, the
request ends in a 500 error and no reasoning-service call is recorded. -/
theorem empty_corpus_no_analysis (env : Env) (ws : List String) (k : String) (corpus : String)
    (hk : env.apiKey = some k)
    (hc : browserStage env.crawlerInit env.render (lightweightPhase env.lightweight ws).1
            (lightweightPhase env.lightweight ws).2 = Except.ok corpus)
    (he : strTrim corpus = "") :
    analyze_products env ws = ([Event.logSearch], Except.error 500) := by
  unfold analyze_products
  simp [hk, hc, he]

theorem empty_corpus_no_analysis_witness :
    analyze_products envC4 ["siteA"] = ([Event.logSearch], Except.error 500) :=
  empty_corpus_no_analysis envC4 ["siteA"] "key" "" rfl rfl rfl

theorem runRetry_some (t : String) :
    runRetry (some t) =
      match robust_json_extract t with
      | some v => ([primaryCfg, retryCfg], Except.ok v)
      | none => ([primaryCfg, retryCfg], Except.error 500) := rfl

theorem runRetry_calls (rt : Option String) : (runRetry rt).1 = [primaryCfg, retryCfg] := by
  cases rt with
  | none => rfl
  | some t =>
    rw [runRetry_some]
    cases robust_json_extract t <;> rfl

theorem runRetry_fail (rt : Option String) (h : callFails rt = true) :
    (runRetry rt).2 = Except.error 500 := by
  cases rt with
  | none => rfl
  | some t =>
    rw [runRetry_some]
    cases hrob : robust_json_extract t with
    | none => rfl
    | some v =>
      simp only [callFails, hrob, Option.isNone_some, Bool.or_false] at h
      have ht : t = "" := eq_of_beq h
      subst ht
      exact absurd hrob (by rw [show robust_json_extract "" = none from rfl]; simp)

/-- C5: when the primary tool-augmented invocation yields no text or text
with no recoverable payload, exactly one further call is made — in strict
structured-output mode with the search tool disabled — and when that retry
also fails the request ends in a 500 error with no third call. -/
theorem analysis_single_retry (pt rt : Option String) (hp : callFails pt = true) :
    (analysisPhase pt rt).1 = [primaryCfg, retryCfg]
    ∧ (callFails rt = true → (analysisPhase pt rt).2 = Except.error 500) := by
  have keq : ∀ t : String, analysisPhase (some t) rt =
      if t == "" then runRetry rt
      else
        match robust_json_extract t with
        | some v => ([primaryCfg], Except.ok v)
        | none => runRetry rt := fun _ => rfl
  have key : analysisPhase pt rt = runRetry rt := by
    cases pt with
    | none => rfl
    | some t =>
      rw [keq t]
      cases hbe : (t == "") with
      | true => simp
      | false =>
        simp only [Bool.false_eq_true, if_false]
        cases hrob : robust_json_extract t with
        | none => rfl
        | some v => simp [callFails, hbe, hrob] at hp
  rw [key]
  exact ⟨runRetry_calls rt, fun h => runRetry_fail rt h⟩

theorem analysis_single_retry_witness :
    callFails (some "") = true ∧ callFails (some "no payload here") = true
    ∧ (analysisPhase (some "") (some "no payload here")).1 = [primaryCfg, retryCfg]
    ∧ (analysisPhase (some "") (some "no payload here")).2 = Except.error 500 := by
  refine ⟨by decide, by decide, ?_, ?_⟩
  · exact (analysis_single_retry (some "") (some "no payload here") (by decide)).1
  · exact (analysis_single_retry (some "") (some "no payload here") (by decide)).2 (by decide)

/-! ### Lightweight-fetch contract, hydration extraction, recovery priority -/

/-- C6: the lightweight fetch is total — every HTTP failure is absorbed into
the no-content value — and it returns extracted content exactly when the
response has status 200 and either the hydration-domain check holds with the
marker in the raw body, or the body exceeds the 5000-character threshold. -/
theorem lightweight_fetch_contract (url : String) (resp : Option HttpResp) :
    lightweight_fetch url resp =
      match resp with
      | none => none
      | some r =>
        if spec_useful url r then some (extract_content_from_html r.body url) else none := by
  cases resp with
  | none => rfl
  | some r =>
    show lightweight_fetch url (some r)
      = if spec_useful url r then some (extract_content_from_html r.body url) else none
    unfold lightweight_fetch spec_useful
    by_cases h200 : r.status = 200 <;>
      by_cases h12 : (strContains url "takealot" && strContains r.body "__NEXT_DATA__") = true <;>
      by_cases h3 : r.body.data.length > 5000 <;>
      simp [h200, h12, h3]

/-- C7: on the hydration-marker markup, the structural strategy and the regex
fallback each independently extract exactly the embedded JSON body, and the
extractor emits it under the hydration-data provenance header. -/
theorem hydration_both_strategies :
    findScriptById hydrationInput = some "\x7b\"a\":1\x7d"
    ∧ nextDataRegex hydrationInput = some "\x7b\"a\":1\x7d"
    ∧ extract_content_from_html hydrationInput "https://www.takealot.com/all?q=gpu"
      = "--- SOURCE (Next.js Data): https://www.takealot.com/all?q=gpu ---\n\x7b\"a\":1\x7d\n" :=
  ⟨rfl, rfl, rfl⟩

/-- C8: recovery applies its strategies in priority order — the fenced input
is recovered through the fenced-block scan, the prose-prefixed input yields no
fenced block and is recovered through the first-brace-to-last-brace span, and
an input with an unterminated fence falls through to the fence-stripping
cleanup. -/
theorem robust_json_priority :
    fencedBlocks fencedInput = ["\x7b\"top_recommendation\":\"x\",\"comparison_table\":[]\x7d"]
    ∧ robust_json_extract fencedInput = some expectedPayload
    ∧ fencedBlocks proseInput = []
    ∧ braceSpan proseInput = some "\x7b\"top_recommendation\":\"x\",\"comparison_table\":[]\x7d"
    ∧ robust_json_extract proseInput = some expectedPayload
    ∧ robust_json_extract "```json\ntrue" = some (JVal.jbool true) :=
  ⟨rfl, rfl, rfl, rfl, rfl, rfl⟩

/-! ### Persistence-before-credential and crawler-failure fallback -/

/-- C9: the persistence-recording task is spawned before the credential check,
so it is the first recorded effect of every request, and a request rejected
with a 400 for a missing credential still carries the recording event. -/
theorem log_before_credential_check (env : Env) (ws : List String) :
    (analyze_products env ws).1.head? = some Event.logSearch
    ∧ (env.apiKey = none → analyze_products env ws = ([Event.logSearch], Except.error 400)) := by
  constructor
  · unfold analyze_products
    by_cases hk : env.apiKey.isNone
    · simp [hk]
    · simp only [hk, Bool.false_eq_true, if_false]
      cases browserStage env.crawlerInit env.render
          (lightweightPhase env.lightweight ws).1 (lightweightPhase env.lightweight ws).2 with
      | error c => rfl
      | ok corpus =>
        by_cases ht : strTrim corpus = "" <;> simp [ht]
  · intro h
    unfold analyze_products
    simp [h]

theorem log_before_credential_check_witness :
    (analyze_products envC9 ["siteA"]).1.head? = some Event.logSearch
    ∧ analyze_products envC9 ["siteA"] = ([Event.logSearch], Except.error 400) :=
  ⟨(log_before_credential_check envC9 ["siteA"]).1,
   (log_before_credential_check envC9 ["siteA"]).2 rfl⟩

/-- C10: when at least one site needs the browser and the crawler fails to
initialize, the request fails with a 500 error exactly when the lightweight
phase gathered nothing; with any partial lightweight corpus it continues with
that corpus instead of failing. -/
theorem crawler_init_fallback (render : String → String) (md : String)
    (needs : List String) (hne : needs ≠ []) :
    (md = "" → browserStage false render md needs = Except.error 500)
    ∧ (md ≠ "" → browserStage false render md needs = Except.ok md) := by
  have hni : needs.isEmpty = false := by
    cases needs with
    | nil => exact absurd rfl hne
    | cons a t => rfl
  constructor
  · intro hmd
    unfold browserStage
    simp [hni, hmd]
  · intro hmd
    unfold browserStage
    simp [hni, hmd]

theorem crawler_init_fallback_witness :
    browserStage false (fun _ => "") "--- SOURCE: siteB ---\n" ["siteA"] =
      Except.ok "--- SOURCE: siteB ---\n" :=
  (crawler_init_fallback (fun _ => "") "--- SOURCE: siteB ---\n" ["siteA"]
    (by decide)).2 (by decide)
